import Mathlib

/-!
Verification development for the `pps` script-execution engine
(`src/index.ts`).  The TypeScript source is shallowly embedded below:

* YAML script entries and the normalizer (`run`, lines 190-196),
* the statement tuples produced by `flatMap` (a bare string yields the
  one-element array `[s]`, `Object.entries` yields two-element arrays),
* the session context (`Context`) and the external world (browser DOM,
  clipboard, keychain store, terminal prompt) as explicit data,
* every handler of the registry (lines 73-181), with external side
  effects recorded as an action trace and JavaScript exceptions as an
  `Option Err` result alongside the partially mutated state,
* the execution driver loop (lines 208-226) with its per-step
  `try`/`catch` isolation and the unknown-keyword abort,
* the tab stack (`pages`/`targets`) event machine for `open`,
  `wait-new-target` and the close listener registered at line 173.
-/

set_option autoImplicit false

namespace PPS

/-! ## JavaScript-style association maps (plain objects / keyed lookups) -/

/-- Lookup in an association list, first match wins (JS property read). -/
def alookup {α β : Type} [DecidableEq α] : List (α × β) → α → Option β
  | [], _ => none
  | (k2, v2) :: rest, k => if k2 = k then some v2 else alookup rest k

/-- JS object property write: replace in place when the key exists
(keeping its position, as JS preserves insertion order), else append. -/
def aset {α β : Type} [DecidableEq α] : List (α × β) → α → β → List (α × β)
  | [], k, v => [(k, v)]
  | (k2, v2) :: rest, k, v =>
      if k2 = k then (k, v) :: rest else (k2, v2) :: aset rest k v

/-! ## Script values, entries and normalized statement tuples -/

/-- A YAML scalar or shallow mapping, as the scripts use for arguments:
strings, numbers, and string-valued mappings such as
the password argument with account, service and name fields. -/
inductive Arg where
  | str (s : String)
  | num (n : Int)
  | map (kvs : List (String × String))
deriving Repr, DecidableEq

/-- One top-level script entry as decoded from YAML: either a bare
keyword string or a keyword-to-argument mapping. -/
inductive Entry where
  | str (s : String)
  | map (kvs : List (String × Arg))
deriving Repr, DecidableEq

/-- A normalized statement tuple as the `flatMap` at lines 190-196
builds it: `Tup.one s` models the one-element JS array `[s]` produced
for a bare string entry, `Tup.two k v` models the two-element array
`[k, v]` produced by `Object.entries` for a mapping entry. -/
inductive Tup where
  | one (k : String)
  | two (k : String) (v : Arg)
deriving Repr, DecidableEq

/-- `statement[0]`: the keyword. -/
def Tup.keyword : Tup → String
  | .one k => k
  | .two k _ => k

/-- `statement[1]`: the argument slot; reading past the end of the JS
array gives `undefined`, modelled as `none`. -/
def Tup.arg : Tup → Option Arg
  | .one _ => none
  | .two _ v => some v

/-- The JS `length` of the statement array. -/
def Tup.length : Tup → Nat
  | .one _ => 1
  | .two _ _ => 2

/-- One entry's contribution to the normalized script:
`typeof statement === 'string' ? [[statement]] : Object.entries(statement)`. -/
def normEntry : Entry → List Tup
  | .str s => [Tup.one s]
  | .map kvs => kvs.map fun kv => Tup.two kv.1 kv.2

/-- The script normalization of `run` (lines 190-196): `source.flatMap`. -/
def normalize (source : List Entry) : List Tup :=
  source.flatMap normEntry

/-- An entry of one of the two shapes the spec admits: a bare string or
a mapping with exactly one key. -/
def wfEntry : Entry → Bool
  | .str _ => true
  | .map kvs => kvs.length == 1

/-- The keyword an entry contributes (head key of a mapping entry). -/
def entryKeyword : Entry → String
  | .str s => s
  | .map kvs => ((kvs.headD ("undefined", Arg.str "")).1)

/-- The single statement a well-formed entry derives; the `Entry.map`
fallbacks are never reached under `wfEntry`. -/
def norm1 : Entry → Tup
  | .str s => Tup.one s
  | .map ((k, v) :: _) => Tup.two k v
  | .map [] => Tup.one "undefined"

/-! ## The tab stack event machine

The `pages`/`targets` stacks are mutated in three places: the `open`
handler (lines 103-109) conses the fresh tab onto both, the
`wait-new-target` handler (lines 158-180) conses the arrived tab onto
both and registers a close listener on that page, and the close
listener itself (lines 173-179) re-resolves the page's index by
identity (`indexOf`) when it fires and splices both arrays there.
Tabs are identified by numeric ids; a page handle and a target handle
for the same tab carry the same id. -/

/-- `Array.prototype.indexOf`: first index of `x`, or `-1`. -/
def jsIndexOf (l : List Nat) (x : Nat) : Int :=
  match l with
  | [] => -1
  | y :: rest => if y = x then 0 else
      match jsIndexOf rest x with
      | -1 => -1
      | i => i + 1

/-- `Array.prototype.splice(start, 1)`: remove one element at `start`,
where a negative `start` counts from the end (clamped at 0) and a
`start` at or past the end removes nothing. -/
def jsSplice1 {α : Type} (l : List α) (start : Int) : List α :=
  let s : Nat := if start < 0 then ((l.length : Int) + start).toNat else start.toNat
  l.take s ++ l.drop (s + 1)

/-- The slice of the session context the tab lifecycle touches, plus
the set of pages carrying a registered close listener (the puppeteer
event-emitter state of line 173). -/
structure TabState where
  pages : List Nat
  targets : List Nat
  listeners : List Nat
deriving Repr, DecidableEq

/-- The three tab lifecycle events of the spec: `open`,
`wait-new-target`, and a tab closing. -/
inductive TabEvent where
  | openTab (t : Nat)
  | newTargetTab (t : Nat)
  | closeTab (t : Nat)
deriving Repr, DecidableEq

/-- One close-listener firing (lines 174-178): the index is resolved by
identity lookup on `pages` at fire time, then both arrays are spliced
at that index. -/
def spliceClose (s : TabState) (t : Nat) : TabState :=
  let index := jsIndexOf s.pages t
  { s with targets := jsSplice1 s.targets index, pages := jsSplice1 s.pages index }

/-- Fire `n` registered close listeners for tab `t` in sequence. -/
def fireListeners : Nat → TabState → Nat → TabState
  | 0, s, _ => s
  | n + 1, s, t => fireListeners n (spliceClose s t) t

/-- The tab stack transition: `open` conses the new tab onto both
stacks; `wait-new-target` additionally registers a close listener;
closing a tab fires every listener registered for it (each splicing by
identity lookup) and discharges those listeners. -/
def tabStep (s : TabState) : TabEvent → TabState
  | .openTab t => { s with pages := t :: s.pages, targets := t :: s.targets }
  | .newTargetTab t =>
      { pages := t :: s.pages, targets := t :: s.targets, listeners := t :: s.listeners }
  | .closeTab t =>
      let fired := fireListeners (s.listeners.count t) s t
      { fired with listeners := fired.listeners.filter fun u => u ≠ t }

/-- Apply a sequence of tab events to the initially empty session
context (empty stacks, no listeners). -/
def runTabs (es : List TabEvent) : TabState :=
  es.foldl tabStep ⟨[], [], []⟩

/-! ## Errors, the external world, the session context, and actions -/

/-- A thrown JS error: its `message`, and its own enumerable
properties (which is what lodash `isEmpty` inspects, and where the
keychain library stores `code`; the built-in `message`/`stack` of an
`Error` are not enumerable). -/
structure Err where
  message : String
  props : List (String × String) := []
deriving Repr, DecidableEq

/-- `err.code`, read from the enumerable properties. -/
def Err.code (e : Err) : Option String := alookup e.props "code"

/-- lodash `isEmpty(err)`: no own enumerable properties. -/
def Err.jsEmpty (e : Err) : Bool := e.props.isEmpty

/-- A `TypeError` raised by the JS runtime itself (property access on
`undefined`, `in` on a non-object, ...): no enumerable properties. -/
def typeErr (m : String) : Err := ⟨m, []⟩

/-- The external collaborators the handlers call into, as deterministic
data: the browser (fresh-tab counter, per-tab URL, permission grants,
DOM query results, clipboard text, arriving targets), the secure
credential store (entries plus injected non-lookup-miss failures), and
the two prompt channels (terminal line reader, in-page prompt). -/
structure World where
  nextTab : Nat := 0
  pageUrl : List (Nat × String) := []
  grants : List (String × List String) := []
  clipboard : String := ""
  dom : List ((Nat × String) × Nat) := []
  domText : List ((Nat × String) × Nat) := []
  keychain : List ((String × String) × String) := []
  kcFault : List ((String × String) × Err) := []
  gotoFault : List (String × Err) := []
  termAnswers : List String := []
  pageAnswers : List String := []
  arrivals : List (String × Nat) := []
deriving Repr, DecidableEq

/-- The mutable session context of `run` (lines 62-69 and 200-206):
open-tab stacks, variable store, output store, and the last located
element handle.  `pageListeners` records on which pages a close
listener has been registered (line 173); in the source that state
lives inside the puppeteer page event emitters. -/
structure Ctx where
  pages : List Nat := []
  targets : List Nat := []
  vars : List (String × String) := []
  output : List (String × String) := []
  query : Option Nat := none
  pageListeners : List Nat := []
deriving Repr, DecidableEq

/-- External side effects a handler performs, recorded as a trace. -/
inductive Action where
  | grantClipboard (origin : String)
  | readClipboard (page : Nat)
  | clearValue (page : Nat) (sel : String)
  | clickPage (page : Nat) (sel : String)
  | clickElem (elem : Nat)
  | focusSel (page : Nat) (sel : String)
  | newPage (page : Nat)
  | goto (page : Nat) (url : String)
  | promptTerminal (q : String)
  | promptPage (page : Nat) (q : String)
  | sleepMs (ms : Option Int)
  | typeElem (elem : Nat) (text : String)
  | waitSelector (page : Nat) (sel : String)
  | waitText (page : Nat) (text : String)
  | waitNav (page : Nat) (waitUntil : String)
  | bringToFront (page : Nat)
deriving Repr, DecidableEq

/-- A handler invocation's outcome: the (possibly partially) mutated
context and world, the external actions performed, and the thrown
error when the handler did not finish.  JS mutations made before a
throw survive it, so the context/world here always reflect them. -/
structure HRes where
  ctx : Ctx
  world : World
  trace : List Action := []
  err : Option Err := none
deriving Repr, DecidableEq

/-! ## JS value coercions used by the handlers -/

/-- JS string coercion of an argument value. -/
def jsStr : Arg → String
  | .str s => s
  | .num n => toString n
  | .map _ => "[object Object]"

/-- JS string coercion of a possibly-undefined argument
(`undefined` coerces to the string "undefined"). -/
def jsKeyStr : Option Arg → String
  | none => "undefined"
  | some a => jsStr a

/-- Property read on an argument value: defined only for mappings,
`undefined` (`none`) everywhere else (JS returns `undefined` for a
missing property on any non-nullish value). -/
def argField : Arg → String → Option String
  | .map kvs, f => alookup kvs f
  | _, _ => none

/-- JS numeric coercion for `statement[1] * 1000`: numbers pass
through, numeric strings coerce, anything else is `NaN` (`none`). -/
def jsNum : Option Arg → Option Int
  | some (.num n) => some n
  | some (.str s) => s.toInt?
  | _ => none

/-- The origin of a URL (`new URL(u).origin`), simplified to
scheme-plus-host; URLs without an authority component (such as
`about:blank`) have the origin "null". -/
def urlOrigin (u : String) : String :=
  match u.splitOn "/" with
  | scheme :: "" :: host :: _ => scheme ++ "//" ++ host
  | _ => "null"

/-! ## The handler registry (source lines 73-181)

Each handler takes the raw statement tuple, the session context and the
world, and returns an `HRes`.  Accessing `context.pages[0]` with an
empty stack models the JS `TypeError` thrown by a property access on
`undefined`. -/

/-- `capture-clipboard` (lines 74-86): grant clipboard permissions for
the active tab's origin (re-granted on every call), read the clipboard
text by an in-page evaluation, and store it under the statement's
output key. -/
def handleCaptureClipboard (stmt : Tup) (ctx : Ctx) (w : World) : HRes :=
  match ctx.pages.head? with
  | none => ⟨ctx, w, [], some (typeErr "Cannot read properties of undefined (reading url)")⟩
  | some p =>
    let origin := urlOrigin ((alookup w.pageUrl p).getD "")
    let w2 := { w with grants := aset w.grants origin ["clipboard-write", "clipboard-read"] }
    let copiedText := w2.clipboard
    let key := jsKeyStr stmt.arg
    ⟨{ ctx with output := aset ctx.output key copiedText }, w2,
      [.grantClipboard origin, .readClipboard p], none⟩

/-- `clear` (lines 87-92): in-page `querySelector` plus value blanking;
the DOM write is recorded as an action (a missing element makes the
in-page callback a no-op, it never throws). -/
def handleClear (stmt : Tup) (ctx : Ctx) (w : World) : HRes :=
  match ctx.pages.head? with
  | none => ⟨ctx, w, [], some (typeErr "Cannot read properties of undefined (reading evaluate)")⟩
  | some p => ⟨ctx, w, [.clearValue p (jsKeyStr stmt.arg)], none⟩

/-- `click` (lines 93-99): with a string argument, click that selector
on the active tab (throwing when no element matches); otherwise click
the stored `query` handle, a no-op when it is absent. -/
def handleClick (stmt : Tup) (ctx : Ctx) (w : World) : HRes :=
  match stmt.arg with
  | some (.str s) =>
    match ctx.pages.head? with
    | none => ⟨ctx, w, [], some (typeErr "Cannot read properties of undefined (reading click)")⟩
    | some p =>
      match alookup w.dom (p, s) with
      | some _ => ⟨ctx, w, [.clickPage p s], none⟩
      | none => ⟨ctx, w, [], some ⟨s!"No element found for selector: {s}", []⟩⟩
  | _ =>
    match ctx.query with
    | some q => ⟨ctx, w, [.clickElem q], none⟩
    | none => ⟨ctx, w, [], none⟩

/-- `focus` (lines 100-102): focus a selector on the active tab,
throwing when no element matches. -/
def handleFocus (stmt : Tup) (ctx : Ctx) (w : World) : HRes :=
  match ctx.pages.head? with
  | none => ⟨ctx, w, [], some (typeErr "Cannot read properties of undefined (reading focus)")⟩
  | some p =>
    let s := jsKeyStr stmt.arg
    match alookup w.dom (p, s) with
    | some _ => ⟨ctx, w, [.focusSel p s], none⟩
    | none => ⟨ctx, w, [], some ⟨s!"No element found for selector: {s}", []⟩⟩

/-- `open` (lines 103-109): create a fresh tab, cons it onto `pages`,
cons its target onto `targets`, then navigate it to the URL.  The two
stack mutations happen before the navigation, so a navigation failure
leaves the new tab on both stacks. -/
def handleOpen (stmt : Tup) (ctx : Ctx) (w : World) : HRes :=
  let p := w.nextTab
  let w2 := { w with nextTab := p + 1, pageUrl := aset w.pageUrl p "about:blank" }
  let ctx2 := { ctx with pages := p :: ctx.pages, targets := p :: ctx.targets }
  let url := jsKeyStr stmt.arg
  match alookup w2.gotoFault url with
  | some e => ⟨ctx2, w2, [.newPage p], some e⟩
  | none => ⟨ctx2, { w2 with pageUrl := aset w2.pageUrl p url }, [.newPage p, .goto p url], none⟩

/-- `getPassword` of the keychain collaborator, promisified: an
injected fault (if any) wins, then a store hit succeeds, and a store
miss rejects with a `PasswordNotFound`-coded error (the keychain
library sets `code` as an own enumerable property). -/
def gp (w : World) (account service : String) : Except Err String :=
  match alookup w.kcFault (account, service) with
  | some e => .error e
  | none =>
    match alookup w.keychain (account, service) with
    | some pw => .ok pw
    | none => .error ⟨"Could not find password", [("code", "PasswordNotFound")]⟩

/-- `password` (lines 110-126): look up the secret; on success bind it
to `vars[name]`.  On failure, re-raise when the error is non-empty and
its code differs from PasswordNotFound; otherwise prompt on the
terminal, persist the answer in the store, and bind it. -/
def handlePassword (stmt : Tup) (ctx : Ctx) (w : World) : HRes :=
  match stmt.arg with
  | some (.map kvs) =>
    let account := (alookup kvs "account").getD "undefined"
    let service := (alookup kvs "service").getD "undefined"
    let name := (alookup kvs "name").getD "undefined"
    match gp w account service with
    | .ok password => ⟨{ ctx with vars := aset ctx.vars name password }, w, [], none⟩
    | .error e =>
      if !e.jsEmpty && !(e.code == some "PasswordNotFound") then
        ⟨ctx, w, [], some e⟩
      else
        let answer := w.termAnswers.headD ""
        let w2 := { w with termAnswers := w.termAnswers.tail,
                           keychain := aset w.keychain (account, service) answer }
        ⟨{ ctx with vars := aset ctx.vars name answer }, w2,
          [.promptTerminal "Enter the password: "], none⟩
  | _ => ⟨ctx, w, [], some (typeErr "Cannot destructure property account")⟩

/-- `read` (lines 127-133): run `window.prompt` in the active tab and
bind the answer to the named variable. -/
def handleRead (stmt : Tup) (ctx : Ctx) (w : World) : HRes :=
  match ctx.pages.head? with
  | none => ⟨ctx, w, [], some (typeErr "Cannot read properties of undefined (reading evaluate)")⟩
  | some p =>
    match stmt.arg with
    | none => ⟨ctx, w, [], some (typeErr "Cannot read properties of undefined (reading question)")⟩
    | some a =>
      let q := (argField a "question").getD "undefined"
      let value := w.pageAnswers.headD ""
      let w2 := { w with pageAnswers := w.pageAnswers.tail }
      let name := (argField a "name").getD "undefined"
      ⟨{ ctx with vars := aset ctx.vars name value }, w2, [.promptPage p q], none⟩

/-- `sleep` (lines 134-136): `pages[0].waitForTimeout(statement[1] * 1000)`;
a non-numeric argument makes the delay `NaN`, which does not throw. -/
def handleSleep (stmt : Tup) (ctx : Ctx) (w : World) : HRes :=
  match ctx.pages.head? with
  | none => ⟨ctx, w, [], some (typeErr "Cannot read properties of undefined (reading waitForTimeout)")⟩
  | some _ => ⟨ctx, w, [.sleepMs ((jsNum stmt.arg).map (· * 1000))], none⟩

/-- `type` (lines 137-143): both branches type into the stored `query`
handle via optional chaining, so an absent handle short-circuits to a
no-op before the argument expression is even evaluated.  With a string
argument the literal is typed; otherwise `vars[statement[1].name]` is
typed, and an unresolved variable passes `undefined` to `type`, which
throws when it iterates the text. -/
def handleType (stmt : Tup) (ctx : Ctx) (w : World) : HRes :=
  match stmt.arg with
  | some (.str s) =>
    match ctx.query with
    | none => ⟨ctx, w, [], none⟩
    | some q => ⟨ctx, w, [.typeElem q s], none⟩
  | some a =>
    match ctx.query with
    | none => ⟨ctx, w, [], none⟩
    | some q =>
      match alookup ctx.vars ((argField a "name").getD "undefined") with
      | some t => ⟨ctx, w, [.typeElem q t], none⟩
      | none => ⟨ctx, w, [], some (typeErr "undefined is not iterable")⟩
  | none =>
    match ctx.query with
    | none => ⟨ctx, w, [], none⟩
    | some _ => ⟨ctx, w, [], some (typeErr "Cannot read properties of undefined (reading name)")⟩

/-- `wait` (lines 144-152): a string argument waits for the selector on
the active tab and stores the handle as `query`; a mapping with a
`text` field waits for an element containing that text; a mapping
without `text` is a silent no-op; any other argument makes the JS `in`
operator throw. -/
def handleWait (stmt : Tup) (ctx : Ctx) (w : World) : HRes :=
  match stmt.arg with
  | some (.str s) =>
    match ctx.pages.head? with
    | none => ⟨ctx, w, [], some (typeErr "Cannot read properties of undefined (reading waitForSelector)")⟩
    | some p =>
      match alookup w.dom (p, s) with
      | some e => ⟨{ ctx with query := some e }, w, [.waitSelector p s], none⟩
      | none => ⟨ctx, w, [], some ⟨s!"waiting for selector {s} failed: timeout 30000ms exceeded", []⟩⟩
  | some (.map kvs) =>
    match alookup kvs "text" with
    | some t =>
      match ctx.pages.head? with
      | none => ⟨ctx, w, [], some (typeErr "Cannot read properties of undefined (reading waitForXPath)")⟩
      | some p =>
        match alookup w.domText (p, t) with
        | some e => ⟨{ ctx with query := some e }, w, [.waitText p t], none⟩
        | none => ⟨ctx, w, [], some ⟨s!"waiting for XPath failed: timeout 30000ms exceeded", []⟩⟩
    | none => ⟨ctx, w, [], none⟩
  | some (.num _) => ⟨ctx, w, [], some (typeErr "Cannot use in operator to search for text")⟩
  | none => ⟨ctx, w, [], some (typeErr "Cannot use in operator to search for text in undefined")⟩

/-- `wait-navigation` (lines 153-157): wait for the given lifecycle
milestone on the active tab, defaulting to networkidle0 when the
argument slot is `undefined`. -/
def handleWaitNavigation (stmt : Tup) (ctx : Ctx) (w : World) : HRes :=
  match ctx.pages.head? with
  | none => ⟨ctx, w, [], some (typeErr "Cannot read properties of undefined (reading waitForNavigation)")⟩
  | some p =>
    let waitUntil := match stmt.arg with
      | none => "networkidle0"
      | some a => jsStr a
    ⟨ctx, w, [.waitNav p waitUntil], none⟩

/-- `wait-new-target` (lines 158-180): wait for a target whose page
title strictly equals the string argument (a non-string argument never
matches and times out), bring it to the front, cons it onto both
stacks, and register a close listener on that page. -/
def handleWaitNewTarget (stmt : Tup) (ctx : Ctx) (w : World) : HRes :=
  let arrived := match stmt.arg with
    | some (.str title) => alookup w.arrivals title
    | _ => none
  match arrived with
  | none => ⟨ctx, w, [], some ⟨"Timed out after waiting 30000ms", []⟩⟩
  | some t =>
    ⟨{ ctx with pages := t :: ctx.pages, targets := t :: ctx.targets,
                pageListeners := t :: ctx.pageListeners },
      w, [.bringToFront t], none⟩

/-- The fixed keyword-to-handler registry (lines 73-181). -/
def handlers (kw : String) : Option (Tup → Ctx → World → HRes) :=
  match kw with
  | "capture-clipboard" => some handleCaptureClipboard
  | "clear" => some handleClear
  | "click" => some handleClick
  | "focus" => some handleFocus
  | "open" => some handleOpen
  | "password" => some handlePassword
  | "read" => some handleRead
  | "sleep" => some handleSleep
  | "type" => some handleType
  | "wait" => some handleWait
  | "wait-navigation" => some handleWaitNavigation
  | "wait-new-target" => some handleWaitNewTarget
  | _ => none

/-! ## The execution driver (source lines 198-237) -/

/-- `JSON.stringify` of an argument value (string escaping elided,
none of the modelled scripts need it). -/
def stringifyArg : Arg → String
  | .str s => "\"" ++ s ++ "\""
  | .num n => toString n
  | .map kvs =>
      "\x7b" ++ String.intercalate ","
        (kvs.map fun kv => "\"" ++ kv.1 ++ "\":\"" ++ kv.2 ++ "\"") ++ "\x7d"

/-- `JSON.stringify` of a statement tuple: the bare-string case prints
as a one-element array. -/
def stringifyTup : Tup → String
  | .one k => "[\"" ++ k ++ "\"]"
  | .two k v => "[\"" ++ k ++ "\"," ++ stringifyArg v ++ "]"

/-- The diagnostic of the unknown-keyword abort (line 212): it names
the line number, the raw statement, and the keyword. -/
def fatalMsg (line : Nat) (stmt : Tup) : String :=
  let ss := stringifyTup stmt
  let kw := stmt.keyword
  s!"(line={line} statement={ss}) Keyword not implemented: {kw}."

/-- One console group per attempted statement (line 215): the line
number, the statement, and the logged error message when the handler
threw (line 220). -/
structure StepLog where
  line : Nat
  stmt : Tup
  errMsg : Option String
deriving Repr, DecidableEq

/-- The outcome of the driver loop: either every statement was
attempted (`ok`, with the final context, world and per-statement
logs), or an unknown keyword aborted the run (`fatal`, with the
diagnostic and the logs of the statements attempted before it). -/
inductive RunResult where
  | ok (ctx : Ctx) (world : World) (logs : List StepLog)
  | fatal (line : Nat) (stmt : Tup) (message : String) (logs : List StepLog)
deriving Repr, DecidableEq

/-- The output mapping handed to the downstream process at the end of
`run` (line 236): produced only when the loop ran to completion. -/
def RunResult.handoff : RunResult → Option (List (String × String))
  | .ok ctx _ _ => some ctx.output
  | .fatal _ _ _ _ => none

/-- The driver loop (lines 208-226): for each statement, abort when the
keyword is not in the registry; otherwise invoke the handler inside a
`try`/`catch` that logs a thrown error and continues with the mutated
context and world. -/
def runScript : List Tup → Nat → Ctx → World → RunResult
  | [], _, ctx, w => .ok ctx w []
  | stmt :: rest, line, ctx, w =>
    match handlers stmt.keyword with
    | none => .fatal line stmt (fatalMsg line stmt) []
    | some h =>
      let r := h stmt ctx w
      let lg : StepLog := ⟨line, stmt, r.err.map Err.message⟩
      match runScript rest (line + 1) r.ctx r.world with
      | .ok c w2 ls => .ok c w2 (lg :: ls)
      | .fatal l s m ls => .fatal l s m (lg :: ls)

/-- The log entries the driver prints while running a script whose
keywords are all recognized: one per statement, carrying the line
number, the statement, and the handler's error message when it threw. -/
def execLogs : List Tup → Nat → Ctx → World → List StepLog
  | [], _, _, _ => []
  | stmt :: rest, line, ctx, w =>
    match handlers stmt.keyword with
    | none => []
    | some h =>
      let r := h stmt ctx w
      ⟨line, stmt, r.err.map Err.message⟩ :: execLogs rest (line + 1) r.ctx r.world

/-- The whole `run` entry point on an already-decoded script source:
normalization followed by the driver loop on a fresh context, starting
at line 1. -/
def run (source : List Entry) (w : World) : RunResult :=
  runScript (normalize source) 1 {} w

/-- The accumulated final context and world of a script all of whose
keywords are recognized: what the driver has threaded through to the
end, failures notwithstanding. -/
def execFinal : List Tup → Nat → Ctx → World → Ctx × World
  | [], _, ctx, w => (ctx, w)
  | stmt :: rest, line, ctx, w =>
    match handlers stmt.keyword with
    | none => (ctx, w)
    | some h => execFinal rest (line + 1) (h stmt ctx w).ctx (h stmt ctx w).world

/-! ## Concrete inputs used to instantiate the theorems -/

/-- A context with one open tab and no located element. -/
def demoCtx : Ctx := { pages := [0], targets := [0] }

/-- Scenario C of the spec: a click whose selector matches nothing,
followed by a sleep. -/
def demoScript : List Tup := [Tup.two "click" (Arg.str "#nope"), Tup.two "sleep" (Arg.num 1)]

/-- A password statement with account, service and variable name. -/
def pwStmt : Tup :=
  Tup.two "password" (Arg.map [("account", "acct"), ("service", "svc"), ("name", "pw")])

/-- A world whose secure store rejects the lookup for (acct, svc) with
an error that has no own enumerable properties (so no code at all),
and whose terminal answers the prompt with "hunter2". -/
def emptyErrWorld : World :=
  { kcFault := [(("acct", "svc"), ⟨"keychain access failed", []⟩)],
    termAnswers := ["hunter2"] }

/-- A world whose secure store rejects the lookup for (acct, svc) with
a coded, non-empty error that is not PasswordNotFound. -/
def lockedErrWorld : World :=
  { kcFault := [(("acct", "svc"), ⟨"keychain locked", [("code", "KeychainLocked")]⟩)],
    termAnswers := ["hunter2"] }

/-- A context with an active tab and a stored query handle. -/
def queryCtx : Ctx := { pages := [3], targets := [3], query := some 7 }

/-- A context with an active tab and no stored query handle. -/
def noQueryCtx : Ctx := { pages := [3], targets := [3] }

/-! ## General lemmas -/

theorem aset_aset {α β : Type} [DecidableEq α] (m : List (α × β)) (k : α) (v : β) :
    aset (aset m k v) k v = aset m k v := by
  induction m with
  | nil => simp [aset]
  | cons p rest ih =>
    obtain ⟨k2, v2⟩ := p
    by_cases h : k2 = k
    · simp [aset, h]
    · simp [aset, h, ih]

theorem normalize_cons (e : Entry) (es : List Entry) :
    normalize (e :: es) = normEntry e ++ normalize es := rfl

theorem normEntry_of_wf (e : Entry) (he : wfEntry e = true) :
    normEntry e = [norm1 e] := by
  cases e with
  | str s => rfl
  | map kvs =>
    cases kvs with
    | nil => simp [wfEntry] at he
    | cons kv rest =>
      cases rest with
      | nil => obtain ⟨k, v⟩ := kv; rfl
      | cons kv2 rest2 => simp [wfEntry] at he

theorem normalize_eq_map_norm1 (source : List Entry)
    (hwf : ∀ e ∈ source, wfEntry e = true) :
    normalize source = source.map norm1 := by
  induction source with
  | nil => rfl
  | cons e es ih =>
    rw [normalize_cons, List.map_cons,
      ih fun x hx => hwf x (List.mem_cons_of_mem e hx),
      normEntry_of_wf e (hwf e (List.mem_cons_self e es))]
    rfl

/-! ## The tab stack invariant -/

theorem spliceClose_aligned (s : TabState) (t : Nat) (h : s.pages = s.targets) :
    (spliceClose s t).pages = (spliceClose s t).targets := by
  simp [spliceClose, h]

theorem fireListeners_aligned (n : Nat) (s : TabState) (t : Nat) (h : s.pages = s.targets) :
    (fireListeners n s t).pages = (fireListeners n s t).targets := by
  induction n generalizing s with
  | zero => exact h
  | succ n ih => exact ih _ (spliceClose_aligned s t h)

theorem tabStep_aligned (s : TabState) (e : TabEvent) (h : s.pages = s.targets) :
    (tabStep s e).pages = (tabStep s e).targets := by
  cases e with
  | openTab t => simpa [tabStep] using h
  | newTargetTab t => simpa [tabStep] using h
  | closeTab t => simpa [tabStep] using fireListeners_aligned (s.listeners.count t) s t h

theorem foldl_tabStep_aligned (es : List TabEvent) (s : TabState) (h : s.pages = s.targets) :
    (es.foldl tabStep s).pages = (es.foldl tabStep s).targets := by
  induction es generalizing s with
  | nil => exact h
  | cons e es ih => exact ih _ (tabStep_aligned s e h)

/-- C2: after any sequence of open, wait-new-target and tab-close
events applied to the initially empty session context, `pages` and
`targets` have equal length and the entries at each index refer to the
same tab (in the model, both stacks hold the same tab id at each
index, so the two lists are equal).  The close path splices both
stacks at one index resolved by `indexOf` at fire time, by definition
of `spliceClose`. -/
theorem tab_stacks_lockstep (es : List TabEvent) :
    (runTabs es).pages.length = (runTabs es).targets.length ∧
    (runTabs es).pages = (runTabs es).targets := by
  have h : (runTabs es).pages = (runTabs es).targets :=
    foldl_tabStep_aligned es ⟨[], [], []⟩ rfl
  exact ⟨by rw [h], h⟩

theorem spliceClose_listeners (s : TabState) (t : Nat) :
    (spliceClose s t).listeners = s.listeners := rfl

theorem fireListeners_listeners (n : Nat) (s : TabState) (t : Nat) :
    (fireListeners n s t).listeners = s.listeners := by
  induction n generalizing s with
  | zero => rfl
  | succ n ih => rw [fireListeners, ih, spliceClose_listeners]

theorem foldl_tabStep_no_listener (es : List TabEvent) (s : TabState) (t : Nat)
    (hs : t ∉ s.listeners) (h : ∀ u, TabEvent.newTargetTab u ∈ es → u ≠ t) :
    t ∉ (es.foldl tabStep s).listeners := by
  induction es generalizing s with
  | nil => exact hs
  | cons e es ih =>
    refine ih _ ?_ fun u hu => h u (List.mem_cons_of_mem e hu)
    cases e with
    | openTab u => simpa [tabStep] using hs
    | newTargetTab u =>
      have hut : u ≠ t := h u (List.mem_cons_self _ _)
      simp [tabStep]
      exact ⟨fun heq => hut heq.symm, hs⟩
    | closeTab u =>
      simp [tabStep, fireListeners_listeners]
      intro hmem
      exact absurd hmem hs

/-- C10: only tabs attached via wait-new-target carry a close
listener, so closing a tab that only ever entered the stacks through
the open handler removes nothing: both stacks still hold its
handles. -/
theorem open_only_tab_close_keeps_stacks (es : List TabEvent) (t : Nat)
    (h : ∀ u, TabEvent.newTargetTab u ∈ es → u ≠ t) :
    (runTabs (es ++ [TabEvent.closeTab t])).pages = (runTabs es).pages ∧
    (runTabs (es ++ [TabEvent.closeTab t])).targets = (runTabs es).targets := by
  have hnot : t ∉ (runTabs es).listeners :=
    foldl_tabStep_no_listener es ⟨[], [], []⟩ t (by simp) h
  have hc : (runTabs es).listeners.count t = 0 := List.count_eq_zero.mpr hnot
  have happ : runTabs (es ++ [TabEvent.closeTab t]) =
      tabStep (runTabs es) (TabEvent.closeTab t) := by
    simp [runTabs, List.foldl_append]
  rw [happ]
  simp [tabStep, hc, fireListeners]

/-- Witness for C10: a tab opened by the open handler and then closed
keeps its entries on both stacks. -/
theorem open_only_tab_close_keeps_stacks_witness :
    (runTabs ([TabEvent.openTab 3] ++ [TabEvent.closeTab 3])).pages =
        (runTabs [TabEvent.openTab 3]).pages ∧
    (runTabs ([TabEvent.openTab 3] ++ [TabEvent.closeTab 3])).targets =
        (runTabs [TabEvent.openTab 3]).targets :=
  open_only_tab_close_keeps_stacks [TabEvent.openTab 3] 3
    (by intro u hu; simp at hu)

/-! ## The normalizer -/

/-- C5: for a script whose entries are of the two admissible shapes
and use recognized keywords, the normalizer yields exactly one
statement per entry, the one derived from the entry at the same
position. -/
theorem normalizer_length_and_order (source : List Entry)
    (hwf : ∀ e ∈ source, wfEntry e = true)
    (_hrec : ∀ e ∈ source, (handlers (entryKeyword e)).isSome) :
    normalize source = source.map norm1 ∧
    (normalize source).length = source.length := by
  have h := normalize_eq_map_norm1 source hwf
  exact ⟨h, by rw [h, List.length_map]⟩

/-- Witness for C5 on a two-entry script. -/
theorem normalizer_length_and_order_witness :
    normalize [Entry.str "click", Entry.map [("open", Arg.str "https://e.com/")]] =
        [Entry.str "click", Entry.map [("open", Arg.str "https://e.com/")]].map norm1 ∧
    (normalize [Entry.str "click", Entry.map [("open", Arg.str "https://e.com/")]]).length =
        ([Entry.str "click", Entry.map [("open", Arg.str "https://e.com/")]] : List Entry).length :=
  normalizer_length_and_order _ (by decide) (by decide)

/-- C6 counterexample: a bare string entry normalizes to the
one-element array `["click"]`, whose JS length is 1, not 2 — the
produced statement is not a 2-element tuple. -/
theorem bare_string_statement_has_length_one :
    normalize [Entry.str "click"] = [Tup.one "click"] ∧
    (Tup.one "click").length ≠ 2 := by
  exact ⟨rfl, by decide⟩

/-- C6 (amended): every statement the normalizer produces is a 1- or
2-element tuple whose slot 0 is the keyword; a bare string entry s
yields the one-element tuple (s), whose argument slot reads as
undefined, and a single-key mapping yields the two-element tuple
(k, v). -/
theorem statement_tuple_shapes (source : List Entry) :
    (∀ t ∈ normalize source,
        (t.length = 1 ∧ t.arg = none ∧ t = Tup.one t.keyword) ∨
        (t.length = 2 ∧ ∃ v, t.arg = some v ∧ t = Tup.two t.keyword v)) ∧
    (∀ s, normEntry (Entry.str s) = [Tup.one s] ∧
        (Tup.one s).keyword = s ∧ (Tup.one s).arg = none) ∧
    (∀ k v, normEntry (Entry.map [(k, v)]) = [Tup.two k v] ∧
        (Tup.two k v).keyword = k ∧ (Tup.two k v).arg = some v) := by
  refine ⟨fun t _ => ?_, fun s => ⟨rfl, rfl, rfl⟩, fun k v => ⟨rfl, rfl, rfl⟩⟩
  cases t with
  | one k => exact Or.inl ⟨rfl, rfl, rfl⟩
  | two k v => exact Or.inr ⟨rfl, v, rfl, rfl⟩

/-- Witness for C6 (amended), instantiated on a bare-string script. -/
theorem statement_tuple_shapes_witness :
    ((Tup.one "sleep").length = 1 ∧ (Tup.one "sleep").arg = none ∧
        Tup.one "sleep" = Tup.one (Tup.one "sleep").keyword) ∨
    ((Tup.one "sleep").length = 2 ∧ ∃ v, (Tup.one "sleep").arg = some v ∧
        Tup.one "sleep" = Tup.two (Tup.one "sleep").keyword v) :=
  (statement_tuple_shapes [Entry.str "sleep"]).1 (Tup.one "sleep") (by decide)

/-! ## The password handler -/

/-- C3 counterexample: the secure store rejects the (acct, svc) lookup
with an error whose message is "keychain access failed" and that
carries no code — a failure reason other than "not found" — yet the
handler does not re-raise it: because the error object has no own
enumerable properties, the lodash isEmpty guard routes it to the
interactive prompt, which persists and binds the typed answer. -/
theorem password_empty_error_not_reraised :
    gp emptyErrWorld "acct" "svc" = .error ⟨"keychain access failed", []⟩ ∧
    (Err.mk "keychain access failed" []).code ≠ some "PasswordNotFound" ∧
    (handlePassword pwStmt {} emptyErrWorld).err = none ∧
    (handlePassword pwStmt {} emptyErrWorld).ctx.vars = [("pw", "hunter2")] ∧
    (handlePassword pwStmt {} emptyErrWorld).world.keychain = [(("acct", "svc"), "hunter2")] ∧
    (handlePassword pwStmt {} emptyErrWorld).trace = [Action.promptTerminal "Enter the password: "] := by
  refine ⟨rfl, by decide, rfl, rfl, rfl, rfl⟩

/-- C3 (amended): when the secure-store lookup fails, the handler
re-raises the error exactly when it is non-empty (has own enumerable
properties) and its code is not PasswordNotFound; a "not found"
failure — or any empty error object — leads to the interactive
prompt, which persists the typed answer into the store under
(account, service) and binds it to vars[name]. -/
theorem password_failure_paths (kvs : List (String × String)) (ctx : Ctx) (w : World)
    (account service name : String) (e : Err)
    (ha : alookup kvs "account" = some account)
    (hs : alookup kvs "service" = some service)
    (hn : alookup kvs "name" = some name)
    (hf : gp w account service = .error e) :
    (e.props ≠ [] → e.code ≠ some "PasswordNotFound" →
      handlePassword (Tup.two "password" (Arg.map kvs)) ctx w = ⟨ctx, w, [], some e⟩) ∧
    ((e.props = [] ∨ e.code = some "PasswordNotFound") →
      handlePassword (Tup.two "password" (Arg.map kvs)) ctx w =
        ⟨{ ctx with vars := aset ctx.vars name (w.termAnswers.headD "") },
         { w with termAnswers := w.termAnswers.tail,
                  keychain := aset w.keychain (account, service) (w.termAnswers.headD "") },
         [Action.promptTerminal "Enter the password: "], none⟩) := by
  constructor
  · intro hne hcode
    have hemp : e.jsEmpty = false := by
      cases hp : e.props with
      | nil => exact absurd hp hne
      | cons a l => simp [Err.jsEmpty, hp]
    have hc : (e.code == some "PasswordNotFound") = false := by
      simp [hcode]
    simp [handlePassword, Tup.arg, ha, hs, hn, hf, hemp, hc]
  · intro hor
    have hcond : (!e.jsEmpty && !(e.code == some "PasswordNotFound")) = false := by
      rcases hor with hp | hc
      · simp [Err.jsEmpty, hp]
      · simp [hc]
    simp [handlePassword, Tup.arg, ha, hs, hn, hf, hcond]

/-- Witness for C3 (amended): a non-empty KeychainLocked failure is
re-raised as a step error. -/
theorem password_failure_paths_witness :
    handlePassword (Tup.two "password" (Arg.map [("account", "acct"), ("service", "svc"), ("name", "pw")]))
        {} lockedErrWorld =
      ⟨{}, lockedErrWorld, [], some ⟨"keychain locked", [("code", "KeychainLocked")]⟩⟩ :=
  (password_failure_paths [("account", "acct"), ("service", "svc"), ("name", "pw")] {} lockedErrWorld
      "acct" "svc" "pw" ⟨"keychain locked", [("code", "KeychainLocked")]⟩
      rfl rfl rfl rfl).1 (by decide) (by decide)

/-! ## click and type dispatch -/

/-- C4 counterexample: a type statement with the explicit literal
"hello", run in a context whose active tab is page 3: with a stored
query handle the text goes to that element handle, and with no stored
handle nothing is typed at all — in neither case does the handler act
directly against the active tab with the literal. -/
theorem type_literal_targets_query_not_page :
    handleType (Tup.two "type" (Arg.str "hello")) queryCtx {} =
      ⟨queryCtx, {}, [Action.typeElem 7 "hello"], none⟩ ∧
    handleType (Tup.two "type" (Arg.str "hello")) noQueryCtx {} =
      ⟨noQueryCtx, {}, [], none⟩ :=
  ⟨rfl, rfl⟩

/-- C4 (amended): a click statement with an explicit string argument
acts directly against the active tab pages[0] using the string as a
selector, and an argument-less click uses the stored query handle;
a type statement always acts against the stored query handle from
the most recent wait — with an explicit string it types the literal,
with a name mapping it types vars[name]. -/
theorem click_type_dispatch (s nm tv : String) (p el q : Nat) (ctx : Ctx) (w : World)
    (hp : ctx.pages.head? = some p)
    (hdom : alookup w.dom (p, s) = some el)
    (hq : ctx.query = some q)
    (hv : alookup ctx.vars nm = some tv) :
    handleClick (Tup.two "click" (Arg.str s)) ctx w = ⟨ctx, w, [Action.clickPage p s], none⟩ ∧
    handleClick (Tup.one "click") ctx w = ⟨ctx, w, [Action.clickElem q], none⟩ ∧
    handleType (Tup.two "type" (Arg.str s)) ctx w = ⟨ctx, w, [Action.typeElem q s], none⟩ ∧
    handleType (Tup.two "type" (Arg.map [("name", nm)])) ctx w =
      ⟨ctx, w, [Action.typeElem q tv], none⟩ := by
  refine ⟨?_, ?_, ?_, ?_⟩
  · simp [handleClick, Tup.arg, hp, hdom]
  · simp [handleClick, Tup.arg, hq]
  · simp [handleType, Tup.arg, hq]
  · simp [handleType, Tup.arg, hq, argField, alookup, hv]

/-- Witness for C4 (amended) on a concrete context and DOM. -/
theorem click_type_dispatch_witness :
    handleClick (Tup.two "click" (Arg.str "#go"))
        { pages := [3], query := some 7, vars := [("user", "alice")] }
        { dom := [((3, "#go"), 11)] } =
      ⟨{ pages := [3], query := some 7, vars := [("user", "alice")] },
       { dom := [((3, "#go"), 11)] }, [Action.clickPage 3 "#go"], none⟩ ∧
    handleClick (Tup.one "click")
        { pages := [3], query := some 7, vars := [("user", "alice")] }
        { dom := [((3, "#go"), 11)] } =
      ⟨{ pages := [3], query := some 7, vars := [("user", "alice")] },
       { dom := [((3, "#go"), 11)] }, [Action.clickElem 7], none⟩ ∧
    handleType (Tup.two "type" (Arg.str "#go"))
        { pages := [3], query := some 7, vars := [("user", "alice")] }
        { dom := [((3, "#go"), 11)] } =
      ⟨{ pages := [3], query := some 7, vars := [("user", "alice")] },
       { dom := [((3, "#go"), 11)] }, [Action.typeElem 7 "#go"], none⟩ ∧
    handleType (Tup.two "type" (Arg.map [("name", "user")]))
        { pages := [3], query := some 7, vars := [("user", "alice")] }
        { dom := [((3, "#go"), 11)] } =
      ⟨{ pages := [3], query := some 7, vars := [("user", "alice")] },
       { dom := [((3, "#go"), 11)] }, [Action.typeElem 7 "alice"], none⟩ :=
  click_type_dispatch "#go" "user" "alice" 3 11 7
    { pages := [3], query := some 7, vars := [("user", "alice")] }
    { dom := [((3, "#go"), 11)] } rfl rfl rfl rfl

/-- C9: an argument-less click, and a type statement of any shape,
run while no query handle is stored, complete without an error,
perform no action, and leave the session context and world
unchanged. -/
theorem no_query_silent_noop (ctx : Ctx) (w : World) (t : Tup) (hq : ctx.query = none) :
    handleClick (Tup.one "click") ctx w = ⟨ctx, w, [], none⟩ ∧
    handleType t ctx w = ⟨ctx, w, [], none⟩ := by
  constructor
  · simp [handleClick, Tup.arg, hq]
  · cases t with
    | one k => simp [handleType, Tup.arg, hq]
    | two k v => cases v <;> simp [handleType, Tup.arg, hq]

/-- Witness for C9 on a context with an open tab and no stored
query. -/
theorem no_query_silent_noop_witness :
    handleClick (Tup.one "click") noQueryCtx {} = ⟨noQueryCtx, {}, [], none⟩ ∧
    handleType (Tup.two "type" (Arg.map [("name", "user")])) noQueryCtx {} =
      ⟨noQueryCtx, {}, [], none⟩ :=
  ⟨(no_query_silent_noop noQueryCtx {} (Tup.two "type" (Arg.map [("name", "user")])) rfl).1,
   (no_query_silent_noop noQueryCtx {} (Tup.two "type" (Arg.map [("name", "user")])) rfl).2⟩

/-! ## capture-clipboard -/

/-- C8: invoking the capture-clipboard handler twice in a row with the
same statement and no intervening clipboard write gives the second
invocation the exact same outcome as the first — in particular the
output mapping is unchanged, the same value being stored under the
same key again. -/
theorem capture_clipboard_idempotent (stmt : Tup) (ctx : Ctx) (w : World) :
    handleCaptureClipboard stmt (handleCaptureClipboard stmt ctx w).ctx
        (handleCaptureClipboard stmt ctx w).world =
      handleCaptureClipboard stmt ctx w := by
  cases hp : ctx.pages with
  | nil => simp [handleCaptureClipboard, hp]
  | cons p ps => simp [handleCaptureClipboard, hp, aset_aset]

/-! ## The execution driver -/

theorem runScript_ok (script : List Tup) (line : Nat) (ctx : Ctx) (w : World)
    (hrec : ∀ s ∈ script, (handlers s.keyword).isSome) :
    runScript script line ctx w =
      .ok (execFinal script line ctx w).1 (execFinal script line ctx w).2
        (execLogs script line ctx w) := by
  induction script generalizing line ctx w with
  | nil => rfl
  | cons stmt rest ih =>
    obtain ⟨h, hh⟩ := Option.isSome_iff_exists.mp (hrec stmt (List.mem_cons_self stmt rest))
    have ih2 := ih (line + 1) (h stmt ctx w).ctx (h stmt ctx w).world
      fun s hs => hrec s (List.mem_cons_of_mem stmt hs)
    simp [runScript, execLogs, execFinal, hh, ih2]

theorem execLogs_spec (script : List Tup) (line : Nat) (ctx : Ctx) (w : World)
    (hrec : ∀ s ∈ script, (handlers s.keyword).isSome) :
    (execLogs script line ctx w).length = script.length ∧
    ∀ i (hi2 : i < (execLogs script line ctx w).length) (hi : i < script.length),
      ((execLogs script line ctx w).get ⟨i, hi2⟩).line = line + i ∧
      ((execLogs script line ctx w).get ⟨i, hi2⟩).stmt = script.get ⟨i, hi⟩ := by
  induction script generalizing line ctx w with
  | nil => exact ⟨rfl, fun i hi2 hi => absurd hi (Nat.not_lt_zero i)⟩
  | cons stmt rest ih =>
    obtain ⟨h, hh⟩ := Option.isSome_iff_exists.mp (hrec stmt (List.mem_cons_self stmt rest))
    obtain ⟨hlen, hidx⟩ := ih (line + 1) (h stmt ctx w).ctx (h stmt ctx w).world
      fun s hs => hrec s (List.mem_cons_of_mem stmt hs)
    have hE : execLogs (stmt :: rest) line ctx w =
        ⟨line, stmt, (h stmt ctx w).err.map Err.message⟩ ::
          execLogs rest (line + 1) (h stmt ctx w).ctx (h stmt ctx w).world := by
      simp [execLogs, hh]
    rw [hE]
    refine ⟨by simp [hlen], ?_⟩
    intro i hi2 hi
    cases i with
    | zero => exact ⟨by simp, by simp⟩
    | succ i =>
      have hi2a : i < (execLogs rest (line + 1) (h stmt ctx w).ctx (h stmt ctx w).world).length := by
        simpa using hi2
      have hia : i < rest.length := by simpa using hi
      obtain ⟨h1, h2⟩ := hidx i hi2a hia
      refine ⟨?_, by simpa using h2⟩
      have harith : line + 1 + i = line + (i + 1) := by omega
      simpa [harith] using h1

/-- C1: a script all of whose keywords are recognized runs to
completion no matter which handlers throw: the driver returns ok
with the threaded-through final context and world, the output mapping
is handed off, and there is exactly one log entry per statement, in
order, carrying the statement context (line number and statement)
and the caught error message when the handler threw. -/
theorem handler_errors_isolated (script : List Tup) (line : Nat) (ctx : Ctx) (w : World)
    (hrec : ∀ s ∈ script, (handlers s.keyword).isSome) :
    runScript script line ctx w =
      .ok (execFinal script line ctx w).1 (execFinal script line ctx w).2
        (execLogs script line ctx w) ∧
    (runScript script line ctx w).handoff = some (execFinal script line ctx w).1.output ∧
    (execLogs script line ctx w).length = script.length ∧
    ∀ i (hi2 : i < (execLogs script line ctx w).length) (hi : i < script.length),
      ((execLogs script line ctx w).get ⟨i, hi2⟩).line = line + i ∧
      ((execLogs script line ctx w).get ⟨i, hi2⟩).stmt = script.get ⟨i, hi⟩ := by
  obtain ⟨hlen, hidx⟩ := execLogs_spec script line ctx w hrec
  have hok := runScript_ok script line ctx w hrec
  exact ⟨hok, by rw [hok]; rfl, hlen, hidx⟩

/-- Witness for C1: the spec's scenario C — a click whose selector
matches nothing throws, yet the run completes, the sleep statement is
attempted, and the output mapping is handed off. -/
theorem handler_errors_isolated_witness :
    runScript demoScript 1 demoCtx {} =
      .ok (execFinal demoScript 1 demoCtx {}).1 (execFinal demoScript 1 demoCtx {}).2
        (execLogs demoScript 1 demoCtx {}) ∧
    (runScript demoScript 1 demoCtx {}).handoff =
      some (execFinal demoScript 1 demoCtx {}).1.output ∧
    (execLogs demoScript 1 demoCtx {}).length = demoScript.length ∧
    ∀ i (hi2 : i < (execLogs demoScript 1 demoCtx {}).length) (hi : i < demoScript.length),
      ((execLogs demoScript 1 demoCtx {}).get ⟨i, hi2⟩).line = 1 + i ∧
      ((execLogs demoScript 1 demoCtx {}).get ⟨i, hi2⟩).stmt = demoScript.get ⟨i, hi⟩ :=
  handler_errors_isolated demoScript 1 demoCtx {} (by decide)

theorem runScript_fatal (pre post : List Tup) (bad : Tup) (line : Nat) (ctx : Ctx) (w : World)
    (hpre : ∀ s ∈ pre, (handlers s.keyword).isSome)
    (hbad : handlers bad.keyword = none) :
    runScript (pre ++ bad :: post) line ctx w =
      .fatal (line + pre.length) bad (fatalMsg (line + pre.length) bad)
        (execLogs pre line ctx w) := by
  revert hpre
  induction pre generalizing line ctx w with
  | nil =>
    intro hpre
    simp [runScript, hbad, execLogs]
  | cons s rest ih =>
    intro hpre
    obtain ⟨h, hh⟩ := Option.isSome_iff_exists.mp (hpre s (List.mem_cons_self s rest))
    have ih2 := ih (line + 1) (h s ctx w).ctx (h s ctx w).world
      fun t ht => hpre t (List.mem_cons_of_mem s ht)
    have harith : line + 1 + rest.length = line + (rest.length + 1) := by omega
    simp [runScript, execLogs, hh, ih2, harith]

/-- C7: an unrecognized keyword at 0-based position k (the length of
the recognized prefix) aborts the run with a fatal result naming line
k+1 (for a script starting at line 1) and the raw offending
statement, after attempting exactly the k earlier statements and
logging them; the statements after position k never influence the
result — they are not executed. -/
theorem unknown_keyword_aborts (pre post : List Tup) (bad : Tup) (line : Nat) (ctx : Ctx) (w : World)
    (hpre : ∀ s ∈ pre, (handlers s.keyword).isSome)
    (hbad : handlers bad.keyword = none) :
    runScript (pre ++ bad :: post) line ctx w =
      .fatal (line + pre.length) bad (fatalMsg (line + pre.length) bad)
        (execLogs pre line ctx w) ∧
    (execLogs pre line ctx w).length = pre.length ∧
    (∀ i (hi2 : i < (execLogs pre line ctx w).length) (hi : i < pre.length),
      ((execLogs pre line ctx w).get ⟨i, hi2⟩).stmt = pre.get ⟨i, hi⟩) ∧
    ∀ post2 : List Tup,
      runScript (pre ++ bad :: post) line ctx w = runScript (pre ++ bad :: post2) line ctx w := by
  obtain ⟨hlen, hidx⟩ := execLogs_spec pre line ctx w hpre
  have hf := runScript_fatal pre post bad line ctx w hpre hbad
  exact ⟨hf, hlen, fun i hi2 hi => (hidx i hi2 hi).2,
    fun post2 => hf.trans (runScript_fatal pre post2 bad line ctx w hpre hbad).symm⟩

/-- Witness for C7: a recognized open at line 1, the unknown keyword
frobnicate at line 2, and a sleep after it that is never executed. -/
theorem unknown_keyword_aborts_witness :
    runScript ([Tup.two "open" (Arg.str "https://a/")] ++ Tup.one "frobnicate" :: [Tup.two "sleep" (Arg.num 1)]) 1 {} {} =
      .fatal (1 + ([Tup.two "open" (Arg.str "https://a/")] : List Tup).length) (Tup.one "frobnicate")
        (fatalMsg (1 + ([Tup.two "open" (Arg.str "https://a/")] : List Tup).length) (Tup.one "frobnicate"))
        (execLogs [Tup.two "open" (Arg.str "https://a/")] 1 {} {}) ∧
    (execLogs [Tup.two "open" (Arg.str "https://a/")] 1 {} {}).length =
      ([Tup.two "open" (Arg.str "https://a/")] : List Tup).length ∧
    (∀ i (hi2 : i < (execLogs [Tup.two "open" (Arg.str "https://a/")] 1 {} {}).length)
        (hi : i < ([Tup.two "open" (Arg.str "https://a/")] : List Tup).length),
      ((execLogs [Tup.two "open" (Arg.str "https://a/")] 1 {} {}).get ⟨i, hi2⟩).stmt =
        ([Tup.two "open" (Arg.str "https://a/")] : List Tup).get ⟨i, hi⟩) ∧
    ∀ post2 : List Tup,
      runScript ([Tup.two "open" (Arg.str "https://a/")] ++ Tup.one "frobnicate" :: [Tup.two "sleep" (Arg.num 1)]) 1 {} {} =
        runScript ([Tup.two "open" (Arg.str "https://a/")] ++ Tup.one "frobnicate" :: post2) 1 {} {} :=
  unknown_keyword_aborts [Tup.two "open" (Arg.str "https://a/")] [Tup.two "sleep" (Arg.num 1)]
    (Tup.one "frobnicate") 1 {} {} (by decide) rfl

end PPS



